import Mathlib

/-!
# paddle-mobile: operator / kernel execution core

A shallow embedding of `fluid/src/framework/operator.h`.

* C++ classes become structures holding the data members; member functions become
  functions on those structures, with the same names.
* `std::map<std::string, std::vector<std::string>>` is the list of its entries in
  iteration order, `std::vector<std::string>` is a `List String`, `size_t` counts are `Nat`.
* A member function that mutates the object (`SetType`) returns the object after the call.
* Member functions that are only declared in the header (their bodies live in a
  translation unit that is not part of the sources) are modelled from the specification;
  each such definition says so in its doc comment.
* Virtual member functions that concrete operators override are function-valued fields.
* The tensor type of `tensor.h` is a type parameter `Tensor4f`.
-/

namespace paddle_mobile

/-! ## Names and keys -/

/-- If a variable is an empty variable, that name will be used (`kEmptyVarName`). -/
def kEmptyVarName : String := "@EMPTY@"

/-- The alias `VariableNameMap = std::map<std::string, std::vector<std::string>>`:
the entries of the map, in iteration order. -/
abbrev VariableNameMap := List (String × List String)

/-- The alias `AttributeMap = std::string`. -/
abbrev AttributeMap := String

/-- Modelled from the spec: `op_kernel_type.h` is not among the sources. A kernel key is the
tuple (data type, memory layout, execution backend), compared by equality. -/
structure OpKernelType where
  data_type_ : Nat
  data_layout_ : Nat
  place_ : Nat
deriving DecidableEq, Repr

/-- Modelled from the spec: the error taxonomy of the execution core (spec section 7). The
header itself names no error type. -/
inductive Error where
  | BindingError (opType : String) (arg : String)
  | ArityError (arg : String) (found : Nat)
  | AttributeNotFoundError (name : String)
  | AttributeTypeError (name : String)
  | UnboundVariableError (var : String)
  | VariableTypeError (var : String)
  | KernelMismatchError (var : String) (actual : OpKernelType) (expected : OpKernelType)
  | KernelNotFoundError (opType : String) (key : OpKernelType)
  | ComputeError
deriving DecidableEq, Repr

/-! ## Variables and scopes (external collaborators) -/

/-- Modelled from the spec: `variable.h` is not among the sources. A variable carries a
payload that either can be viewed as a tensor (`As<Tensor4f>()` is non-null) or cannot. -/
inductive Variable (Tensor4f : Type) where
  | tensor (t : Tensor4f)
  | other
deriving DecidableEq, Repr

/-- Modelled from the spec: `scope.h` is not among the sources. The variable store resolves
names to variables. -/
structure Scope (Tensor4f : Type) where
  vars_ : List (String × Variable Tensor4f)
deriving DecidableEq, Repr

/-- Modelled from the spec: `FindOrNull(name) -> Variable*`, `none` standing for the null
pointer. -/
def Scope.FindOrNull {Tensor4f : Type} (scope : Scope Tensor4f) (name : String) :
    Option (Variable Tensor4f) :=
  List.lookup name scope.vars_

/-! ## OperatorBase -/

/-- The data members of `class OperatorBase`. The constructor
`OperatorBase(type, inputs, outputs, attrs)` is only declared in the header; following the
spec (the operator owns its name maps and attributes by value) it stores its four arguments,
which is the structure constructor `OperatorBase.mk`. -/
structure OperatorBase where
  type_ : String
  inputs_ : VariableNameMap
  outputs_ : VariableNameMap
  attrs_ : AttributeMap
deriving DecidableEq, Repr

/-- The accessor `const VariableNameMap& Inputs() const`, returning `inputs_`. -/
def OperatorBase.Inputs (op : OperatorBase) : VariableNameMap := op.inputs_

/-- The accessor `const VariableNameMap& Outputs() const`, returning `outputs_`. -/
def OperatorBase.Outputs (op : OperatorBase) : VariableNameMap := op.outputs_

/-- The accessor `const std::string& Type() const`, returning `type_`. -/
def OperatorBase.Type (op : OperatorBase) : String := op.type_

/-- The mutator `void SetType(const std::string& type)` with body `type_ = type;`. The result is
the operator after the call. -/
def OperatorBase.SetType (op : OperatorBase) (type : String) : OperatorBase :=
  { op with type_ := type }

/-- The accessor `const AttributeMap& Attrs() const`, returning `attrs_`. -/
def OperatorBase.Attrs (op : OperatorBase) : AttributeMap := op.attrs_

/-- Modelled from the spec: the overload `Inputs(const std::string& name)` is only declared.
It returns the full ordered sequence bound to `name` in the input name map, which may be
empty. -/
def OperatorBase.InputsOf (op : OperatorBase) (name : String) : List String :=
  (List.lookup name op.inputs_).getD []

/-- Modelled from the spec: the overload `Outputs(const std::string& name)` is only declared.
It returns the full ordered sequence bound to `name` in the output name map, which may be
empty. -/
def OperatorBase.OutputsOf (op : OperatorBase) (name : String) : List String :=
  (List.lookup name op.outputs_).getD []

/-- Modelled from the spec: `Input(name)` is only declared. It requires exactly one variable
bound to `name` and fails with `ArityError` if zero or more than one is bound. -/
def OperatorBase.Input (op : OperatorBase) (name : String) : Except Error String :=
  match op.InputsOf name with
  | [v] => .ok v
  | ins => .error (.ArityError name ins.length)

/-- Modelled from the spec: `Output(name)` is only declared; the contract is symmetric to
`Input(name)`, over the output name map. -/
def OperatorBase.Output (op : OperatorBase) (name : String) : Except Error String :=
  match op.OutputsOf name with
  | [v] => .ok v
  | outs => .error (.ArityError name outs.length)

/-! ## Attributes -/

/-- Modelled from the spec: the static types an attribute can be queried at, one of int,
float, bool, string, and sequences of those. -/
inductive AttrKind where
  | int | float | bool | string | ints | floats | bools | strings
deriving DecidableEq, Repr

/-- Modelled from the spec: the values of each attribute type. A float is carried as the bit
pattern of its IEEE-754 single precision representation, so equality is equality of
representations. -/
def AttrKind.carrier : AttrKind → Type
  | .int => Int
  | .float => Nat
  | .bool => Bool
  | .string => String
  | .ints => List Int
  | .floats => List Nat
  | .bools => List Bool
  | .strings => List String

/-- Modelled from the spec: a stored attribute value, tagged with its type. -/
structure TypedValue where
  kind : AttrKind
  payload : kind.carrier

/-- Modelled from the spec: viewing a stored attribute as type `T`; `none` when the stored
representation cannot be viewed as `T`. -/
def TypedValue.As (tv : TypedValue) (T : AttrKind) : Option T.carrier :=
  if h : tv.kind = T then some (h ▸ tv.payload) else none

/-- Modelled from the spec: the external attribute reader, which produces the typed attribute
bag from the serialized description an operator is constructed with. Its format is outside the
core, so every function that reads attributes takes it as an argument. -/
abbrev AttributeDecoder := AttributeMap → List (String × TypedValue)

/-- Modelled from the spec: `Attr<T>(name)` is only declared. It returns the stored attribute
viewed as `T`, fails with `AttributeTypeError` if the stored representation cannot be viewed as
`T`, and with `AttributeNotFoundError` if the attribute is absent. -/
def OperatorBase.Attr (decode : AttributeDecoder) (op : OperatorBase) (T : AttrKind)
    (name : String) : Except Error T.carrier :=
  match List.lookup name (decode op.attrs_) with
  | none => .error (.AttributeNotFoundError name)
  | some tv =>
    match tv.As T with
    | some v => .ok v
    | none => .error (.AttributeTypeError name)

/-! ## ExecutionContext -/

/-- What a call of a value-returning member function delivers: the value of the return
statement it executed, the error it failed with, or nothing at all when control reaches the
closing brace of the body without executing a return statement. -/
inductive Outcome (α : Type) where
  | returned (value : α)
  | raised (err : Error)
  | noReturn
deriving DecidableEq, Repr

/-- The data members of `class ExecutionContext`; the constructor
`ExecutionContext(op, scope) : op_(op), scope_(scope) {}` is the structure constructor. -/
structure ExecutionContext (Tensor4f : Type) where
  op_ : OperatorBase
  scope_ : Scope Tensor4f

namespace ExecutionContext

variable {Tensor4f : Type}

/-- The accessor `const OperatorBase& op() const`, returning `op_`. -/
def op (ctx : ExecutionContext Tensor4f) : OperatorBase := ctx.op_

/-- The accessor `const Scope& scope() const`, returning `scope_`. -/
def scope (ctx : ExecutionContext Tensor4f) : Scope Tensor4f := ctx.scope_

/-- The member `Attr<T>(name)`, with body `return op_.Attr<T>(name);`. -/
def Attr (decode : AttributeDecoder) (ctx : ExecutionContext Tensor4f) (T : AttrKind)
    (name : String) : Except Error T.carrier :=
  ctx.op_.Attr decode T name

/-- The member `InputSize(name)`, with body `return op_.Inputs(name).size();`. -/
def InputSize (ctx : ExecutionContext Tensor4f) (name : String) : Nat :=
  (ctx.op_.InputsOf name).length

/-- The member `OutputSize(name)`, with body `return op_.Outputs(name).size();`. -/
def OutputSize (ctx : ExecutionContext Tensor4f) (name : String) : Nat :=
  (ctx.op_.OutputsOf name).length

/-- The member `const Variable* InputVar(const std::string& name) const {}`. The body is
empty: it reads neither `op_` nor `scope_`, raises nothing, and ends without a return
statement. -/
def InputVar (_ctx : ExecutionContext Tensor4f) (_name : String) :
    Outcome (Variable Tensor4f) :=
  .noReturn

/-- The member `Variable* OutputVar(const std::string& name) const {}`. The body is empty: it
reads neither `op_` nor `scope_`, raises nothing, and ends without a return statement. -/
def OutputVar (_ctx : ExecutionContext Tensor4f) (_name : String) :
    Outcome (Variable Tensor4f) :=
  .noReturn

/-- The member `Inputs(name)`, with body `return op_.Inputs(name);`. -/
def Inputs (ctx : ExecutionContext Tensor4f) (name : String) : List String :=
  ctx.op_.InputsOf name

/-- The member `Outputs(name)`, with body `return op_.Outputs(name);`. -/
def Outputs (ctx : ExecutionContext Tensor4f) (name : String) : List String :=
  ctx.op_.OutputsOf name

end ExecutionContext

/-- The contract the spec gives for `ExecutionContext::InputVar`: resolve the single variable
name bound to `name` (failing as `OperatorBase::Input` does when the arity is not one), then
resolve that variable in the scope (failing with `UnboundVariableError` when it is absent). -/
def ExecutionContext.InputVar_spec {Tensor4f : Type} (ctx : ExecutionContext Tensor4f)
    (name : String) : Outcome (Variable Tensor4f) :=
  match ctx.op_.Input name with
  | .error e => .raised e
  | .ok v =>
    match ctx.scope_.FindOrNull v with
    | none => .raised (.UnboundVariableError v)
    | some var => .returned var

/-- The contract the spec gives for `ExecutionContext::OutputVar`, symmetric to
`InputVar_spec` over the output name map. -/
def ExecutionContext.OutputVar_spec {Tensor4f : Type} (ctx : ExecutionContext Tensor4f)
    (name : String) : Outcome (Variable Tensor4f) :=
  match ctx.op_.Output name with
  | .error e => .raised e
  | .ok v =>
    match ctx.scope_.FindOrNull v with
    | none => .raised (.UnboundVariableError v)
    | some var => .returned var

/-! ## Running an operator -/

/-- Modelled from the spec: `class InferShapeContext` is only forward-declared. Shape inference
reads the operator's inputs and attributes and writes output shape metadata into the scope, so
the context pairs an operator with a scope. -/
structure InferShapeContext (Tensor4f : Type) where
  op_ : OperatorBase
  scope_ : Scope Tensor4f

/-- The instrumentation points of one `Run` call: a lookup in the kernel registry and a call of
a kernel's `Compute`. -/
inductive Event where
  | kernelLookup (opType : String) (key : OpKernelType)
  | compute (opType : String)
deriving DecidableEq, Repr

/-- What one `Run` call did: the instrumented events in order, and either the error it failed
with or the scope it leaves behind. -/
structure RunReport (Tensor4f : Type) where
  events : List Event
  result : Except Error (Scope Tensor4f)

/-- The class `OpKernelBase`: its one capability is the pure virtual
`Compute(const ExecutionContext&)`. A kernel writes its outputs into the scope or fails. -/
structure OpKernelBase (Tensor4f : Type) where
  Compute : ExecutionContext Tensor4f → Except Error (Scope Tensor4f)

/-- Modelled from the spec: the external kernel registry,
`Lookup(type_name, KernelKey) -> Kernel*`, `none` standing for a miss. -/
abbrev KernelRegistry (Tensor4f : Type) := String → OpKernelType → Option (OpKernelBase Tensor4f)

/-- The virtual members of `class OperatorWithKernel`, as a concrete operator provides them. -/
structure KernelOps (Tensor4f : Type) where
  InferShape : InferShapeContext Tensor4f → InferShapeContext Tensor4f
  GetExpectedKernelType : ExecutionContext Tensor4f → OpKernelType
  GetKernelTypeForVar : String → Tensor4f → OpKernelType → OpKernelType

/-- The base-class body `virtual void InferShape(InferShapeContext* ctx) const {};`: an empty
body, so the context after the call is the context before it. -/
def OperatorWithKernel.InferShape {Tensor4f : Type} (ctx : InferShapeContext Tensor4f) :
    InferShapeContext Tensor4f :=
  ctx

/-- Modelled from the spec: an argument is marked empty when its sole variable name is the
reserved sentinel. -/
def markedEmpty (vars : List String) : Bool :=
  vars == [kEmptyVarName]

/-- Modelled from the spec: an argument resolves to at least one variable name bound in the
scope. -/
def argBound {Tensor4f : Type} (scope : Scope Tensor4f) (vars : List String) : Bool :=
  vars.any fun v => (scope.FindOrNull v).isSome

/-- Modelled from the spec: `CheckAllInputOutputSet` is only declared. Every declared input and
output argument name must resolve to at least one variable name bound in the scope, except
names marked empty; the first argument that does not makes the check fail with a
`BindingError` identifying the operator type and the argument name. -/
def OperatorBase.CheckAllInputOutputSet {Tensor4f : Type} (op : OperatorBase)
    (scope : Scope Tensor4f) : Except Error Unit :=
  match (op.inputs_ ++ op.outputs_).find? fun e => !(markedEmpty e.2 || argBound scope e.2) with
  | some e => .error (.BindingError op.type_ e.1)
  | none => .ok ()

/-- Modelled from the spec: `Run(scope)` is only declared. It validates the bindings and on
success delegates to the virtual execution step `RunImpl`, which is pure virtual in
`OperatorBase` and therefore an argument here. -/
def OperatorBase.Run {Tensor4f : Type} (op : OperatorBase)
    (RunImpl : Scope Tensor4f → RunReport Tensor4f) (scope : Scope Tensor4f) :
    RunReport Tensor4f :=
  match op.CheckAllInputOutputSet scope with
  | .error e => { events := [], result := .error e }
  | .ok _ => RunImpl scope

/-- Modelled from the spec: every input and output variable name bound by the operator, the
inputs first, each name map in its own order. -/
def OperatorBase.boundVarNames (op : OperatorBase) : List String :=
  ((op.inputs_ ++ op.outputs_).map Prod.snd).flatten

/-- Modelled from the spec: the per-variable key check. For a variable bound to a tensor in the
scope, `GetKernelTypeForVar(var_name, tensor, expected_key)` is called, and a key different
from the expected one is reported. -/
def keyMismatch {Tensor4f : Type} (virt : KernelOps Tensor4f) (scope : Scope Tensor4f)
    (expected : OpKernelType) (v : String) : Option OpKernelType :=
  match scope.FindOrNull v with
  | some (.tensor t) =>
    if virt.GetKernelTypeForVar v t expected = expected then none
    else some (virt.GetKernelTypeForVar v t expected)
  | _ => none

/-- Modelled from the spec: the first variable, in order, whose key differs from the expected
key, with that key. -/
def firstKeyMismatch {Tensor4f : Type} (virt : KernelOps Tensor4f) (scope : Scope Tensor4f)
    (expected : OpKernelType) : List String → Option (String × OpKernelType)
  | [] => none
  | v :: vs =>
    match keyMismatch virt scope expected v with
    | some k => some (v, k)
    | none => firstKeyMismatch virt scope expected vs

/-- Modelled from the spec: the scope after the shape-inference phase of a run, which
populates output shape metadata before any kernel runs. -/
def OperatorWithKernel.inferredScope {Tensor4f : Type} (virt : KernelOps Tensor4f)
    (op : OperatorBase) (scope : Scope Tensor4f) : Scope Tensor4f :=
  (virt.InferShape { op_ := op, scope_ := scope }).scope_

/-- Modelled from the spec: the expected kernel key of a run, `GetExpectedKernelType(ctx)` on
the execution context of the run. -/
def OperatorWithKernel.expectedKey {Tensor4f : Type} (virt : KernelOps Tensor4f)
    (op : OperatorBase) (scope : Scope Tensor4f) : OpKernelType :=
  virt.GetExpectedKernelType
    { op_ := op, scope_ := OperatorWithKernel.inferredScope virt op scope }

/-- Modelled from the spec: `OperatorWithKernel::RunImpl` is only declared. After shape
inference it computes the expected kernel key, asks `GetKernelTypeForVar` for every bound
input and output variable and fails with `KernelMismatchError` (naming the variable and the
two keys) if one differs from the expected key; otherwise it looks the kernel up by operator
type and expected key, fails with `KernelNotFoundError` on a miss, and else calls the
kernel's `Compute` on a fresh execution context. -/
def OperatorWithKernel.RunImpl {Tensor4f : Type} (virt : KernelOps Tensor4f)
    (registry : KernelRegistry Tensor4f) (op : OperatorBase) (scope : Scope Tensor4f) :
    RunReport Tensor4f :=
  let inferred := OperatorWithKernel.inferredScope virt op scope
  let expected := OperatorWithKernel.expectedKey virt op scope
  match firstKeyMismatch virt inferred expected op.boundVarNames with
  | some (v, k) => { events := [], result := .error (.KernelMismatchError v k expected) }
  | none =>
    match registry op.type_ expected with
    | none =>
      { events := [.kernelLookup op.type_ expected],
        result := .error (.KernelNotFoundError op.type_ expected) }
    | some kernel =>
      { events := [.kernelLookup op.type_ expected, .compute op.type_],
        result := kernel.Compute { op_ := op, scope_ := inferred } }

/-- Modelled from the spec: `Run` of a kernel-backed operator, which is `OperatorBase::Run`
with `OperatorWithKernel::RunImpl` as the execution step. -/
def OperatorWithKernel.Run {Tensor4f : Type} (virt : KernelOps Tensor4f)
    (registry : KernelRegistry Tensor4f) (op : OperatorBase) (scope : Scope Tensor4f) :
    RunReport Tensor4f :=
  op.Run (OperatorWithKernel.RunImpl virt registry op) scope

/-- Number of kernel registry lookups among the events of a run. -/
def kernelLookups (events : List Event) : Nat :=
  events.countP fun e => match e with
    | .kernelLookup _ _ => true
    | .compute _ => false

/-- Number of `Compute` calls among the events of a run. -/
def computeCalls (events : List Event) : Nat :=
  events.countP fun e => match e with
    | .kernelLookup _ _ => false
    | .compute _ => true

/-! ## Concrete operators and scopes used as test inputs -/

/-- The operator "Identity" with input X bound to x1 and output Out bound to y1. -/
def identityOp : OperatorBase :=
  { type_ := "Identity", inputs_ := [("X", ["x1"])], outputs_ := [("Out", ["y1"])], attrs_ := "" }

/-- A scope holding tensors x1 and y1; a tensor is represented by a tag. -/
def identityScope : Scope Nat :=
  { vars_ := [("x1", .tensor 7), ("y1", .tensor 7)] }

/-- A scope in which x1 is missing. -/
def scopeWithoutX1 : Scope Nat :=
  { vars_ := [("y1", .tensor 7)] }

/-- The operator "Add" with inputs X bound to x1, Y bound to x2 and output Out bound to y1. -/
def addOp : OperatorBase :=
  { type_ := "Add", inputs_ := [("X", ["x1"]), ("Y", ["x2"])], outputs_ := [("Out", ["y1"])],
    attrs_ := "" }

/-- Virtual members for the test operators: shape inference is the base-class default, the
expected key is fixed, and the key of a variable takes its data type from the tensor tag. -/
def tagOps : KernelOps Nat :=
  { InferShape := OperatorWithKernel.InferShape,
    GetExpectedKernelType := fun _ => { data_type_ := 0, data_layout_ := 0, place_ := 0 },
    GetKernelTypeForVar := fun _ t expected => { expected with data_type_ := t } }

/-- A registry with one kernel for every key, which copies nothing and succeeds. -/
def stubRegistry : KernelRegistry Nat :=
  fun _ _ => some { Compute := fun ctx => .ok ctx.scope_ }

/-- A scope where x1 and x2 hold tensors of different data types and y1 is present. -/
def mixedScope : Scope Nat :=
  { vars_ := [("x1", .tensor 0), ("x2", .tensor 1), ("y1", .tensor 0)] }

/-- A scope where x1 and x2 hold tensors of different data types and y1 is missing. -/
def mixedScopeWithoutY1 : Scope Nat :=
  { vars_ := [("x1", .tensor 0), ("x2", .tensor 1)] }

/-- A reader for attribute descriptions of the form `axis` (an integer attribute with value
1); every other description carries no attributes. -/
def axisDecoder : AttributeDecoder :=
  fun s => if s = "axis" then [("axis", TypedValue.mk AttrKind.int (1 : Int))] else []

/-! ## Theorems: ExecutionContext forwarding -/

/-- C1: for a context built from an operator and a scope, `InputSize(n)` is the length of
`op.Inputs(n)` and `OutputSize(n)` is the length of `op.Outputs(n)`. -/
theorem ExecutionContext.size_forwards {Tensor4f : Type} (op : OperatorBase)
    (scope : Scope Tensor4f) (n : String) :
    (ExecutionContext.mk op scope).InputSize n = (op.InputsOf n).length ∧
    (ExecutionContext.mk op scope).OutputSize n = (op.OutputsOf n).length :=
  ⟨rfl, rfl⟩

/-- C2: for a context built from an operator, `Inputs(n)` and `Outputs(n)` of the context are
exactly the sequences `op.Inputs(n)` and `op.Outputs(n)`: equal as lists, hence the same names
at the same positions. -/
theorem ExecutionContext.names_forward {Tensor4f : Type} (op : OperatorBase)
    (scope : Scope Tensor4f) (n : String) :
    (ExecutionContext.mk op scope).Inputs n = op.InputsOf n ∧
    (ExecutionContext.mk op scope).Outputs n = op.OutputsOf n ∧
    (∀ i : Nat, ((ExecutionContext.mk op scope).Inputs n)[i]? = (op.InputsOf n)[i]?) ∧
    (∀ i : Nat, ((ExecutionContext.mk op scope).Outputs n)[i]? = (op.OutputsOf n)[i]?) :=
  ⟨rfl, rfl, fun _ => rfl, fun _ => rfl⟩

/-- C3 (the code at the inputs where the claim fails): on the Identity operator with x1 in
scope the contract delivers the variable x1 but `InputVar` and `OutputVar` deliver nothing;
with x1 missing the contract raises `UnboundVariableError`, and with no name bound to the
argument it raises `ArityError`, where `InputVar` again delivers nothing and raises
nothing. -/
theorem ExecutionContext.InputVar_delivers_nothing :
    (ExecutionContext.mk identityOp identityScope).InputVar "X" = Outcome.noReturn ∧
    (ExecutionContext.mk identityOp identityScope).InputVar_spec "X"
      = Outcome.returned (Variable.tensor 7) ∧
    (ExecutionContext.mk identityOp identityScope).OutputVar "Out" = Outcome.noReturn ∧
    (ExecutionContext.mk identityOp identityScope).OutputVar_spec "Out"
      = Outcome.returned (Variable.tensor 7) ∧
    (ExecutionContext.mk identityOp scopeWithoutX1).InputVar "X" = Outcome.noReturn ∧
    (ExecutionContext.mk identityOp scopeWithoutX1).InputVar_spec "X"
      = Outcome.raised (Error.UnboundVariableError "x1") ∧
    (ExecutionContext.mk identityOp identityScope).InputVar "Y" = Outcome.noReturn ∧
    (ExecutionContext.mk identityOp identityScope).InputVar_spec "Y"
      = Outcome.raised (Error.ArityError "Y" 0) := by
  refine ⟨rfl, ?_, rfl, ?_, rfl, ?_, rfl, ?_⟩ <;> decide

/-! ## Theorems: OperatorBase -/

/-- C4: `Input(n)` fails with `ArityError` exactly when the sequence bound to `n` in the input
name map has length different from 1, and returns `v` exactly when that sequence is the single
name `v`; `Output(n)` behaves the same way over the output name map. -/
theorem OperatorBase.Input_Output_arity (op : OperatorBase) (n : String) :
    ((∃ k, op.Input n = Except.error (Error.ArityError n k)) ↔ (op.InputsOf n).length ≠ 1) ∧
    (∀ v, op.Input n = Except.ok v ↔ op.InputsOf n = [v]) ∧
    ((∃ k, op.Output n = Except.error (Error.ArityError n k)) ↔ (op.OutputsOf n).length ≠ 1) ∧
    (∀ v, op.Output n = Except.ok v ↔ op.OutputsOf n = [v]) := by
  unfold OperatorBase.Input OperatorBase.Output
  generalize op.InputsOf n = xs
  generalize op.OutputsOf n = ys
  refine ⟨?_, ?_, ?_, ?_⟩
  · rcases xs with _ | ⟨a, _ | ⟨b, r⟩⟩ <;> simp
  · rcases xs with _ | ⟨a, _ | ⟨b, r⟩⟩ <;> simp
  · rcases ys with _ | ⟨a, _ | ⟨b, r⟩⟩ <;> simp
  · rcases ys with _ | ⟨a, _ | ⟨b, r⟩⟩ <;> simp

/-- Viewing a value at its own type gives its payload. -/
theorem TypedValue.As_same (T : AttrKind) (v : T.carrier) :
    (TypedValue.mk T v).As T = some v := by
  simp [TypedValue.As]

/-- Viewing a value at another type gives nothing. -/
theorem TypedValue.As_other (T U : AttrKind) (v : T.carrier) (h : U ≠ T) :
    (TypedValue.mk T v).As U = none := by
  simp [TypedValue.As, Ne.symm h]

/-- C7: if the attribute description an operator is constructed with binds `name` to the value
`v` of type `T`, then `Attr<T>(name)` on that operator yields `v`, and `Attr<U>(name)` at any
other type `U` fails with `AttributeTypeError`. -/
theorem OperatorBase.Attr_round_trip (decode : AttributeDecoder) (type : String)
    (inputs outputs : VariableNameMap) (attrs : AttributeMap) (name : String) (T : AttrKind)
    (v : T.carrier) (hgiven : List.lookup name (decode attrs) = some (TypedValue.mk T v)) :
    (OperatorBase.mk type inputs outputs attrs).Attr decode T name = Except.ok v ∧
    ∀ U : AttrKind, U ≠ T →
      (OperatorBase.mk type inputs outputs attrs).Attr decode U name
        = Except.error (Error.AttributeTypeError name) := by
  refine ⟨?_, fun U hU => ?_⟩
  · simp only [OperatorBase.Attr, hgiven, TypedValue.As_same]
  · simp only [OperatorBase.Attr, hgiven, TypedValue.As_other T U v hU]

/-- C7 at a concrete operator: an integer attribute `axis = 1` reads back as 1 at type int and
fails with `AttributeTypeError` at every other type. -/
theorem OperatorBase.Attr_round_trip_witness :
    (OperatorBase.mk "Concat" [] [] "axis").Attr axisDecoder AttrKind.int "axis"
      = Except.ok (1 : Int) ∧
    ∀ U : AttrKind, U ≠ AttrKind.int →
      (OperatorBase.mk "Concat" [] [] "axis").Attr axisDecoder U "axis"
        = Except.error (Error.AttributeTypeError "axis") :=
  OperatorBase.Attr_round_trip axisDecoder "Concat" [] [] "axis" "axis" AttrKind.int (1 : Int)
    rfl

/-- C8: after `SetType(t)` the value of `Type()` is `t`, and `Inputs()`, `Outputs()` and
`Attrs()` are what they were before the call. -/
theorem OperatorBase.SetType_frame (op : OperatorBase) (t : String) :
    (op.SetType t).Type = t ∧
    (op.SetType t).Inputs = op.Inputs ∧
    (op.SetType t).Outputs = op.Outputs ∧
    (op.SetType t).Attrs = op.Attrs :=
  ⟨rfl, rfl, rfl, rfl⟩

/-- C9 (as stated, refuted): after `SetType("conv")` followed by `SetType("relu")` the type
name is "relu", not "conv". -/
theorem OperatorBase.SetType_twice_counterexample :
    ((identityOp.SetType "conv").SetType "relu").Type = "relu" ∧
    ((identityOp.SetType "conv").SetType "relu").Type ≠ "conv" := by
  decide

/-- C9 (amended): after `SetType(t1)` followed by `SetType(t2)`, `Type()` is `t2`, and the name
maps and attributes are unchanged. -/
theorem OperatorBase.SetType_last_wins (op : OperatorBase) (t1 t2 : String) :
    ((op.SetType t1).SetType t2).Type = t2 ∧
    ((op.SetType t1).SetType t2).Inputs = op.Inputs ∧
    ((op.SetType t1).SetType t2).Outputs = op.Outputs ∧
    ((op.SetType t1).SetType t2).Attrs = op.Attrs :=
  ⟨rfl, rfl, rfl, rfl⟩

/-- C10: the default `InferShape` leaves every shape-inference context unchanged, so invoking
it twice gives the same context as invoking it once. -/
theorem OperatorWithKernel.InferShape_default_idempotent {Tensor4f : Type}
    (ctx : InferShapeContext Tensor4f) :
    OperatorWithKernel.InferShape ctx = ctx ∧
    OperatorWithKernel.InferShape (OperatorWithKernel.InferShape ctx)
      = OperatorWithKernel.InferShape ctx :=
  ⟨rfl, rfl⟩

/-! ## Theorems: Run -/

/-- An argument that is not marked empty and has no variable in scope fails the binding
check, so the check reports some argument. -/
theorem CheckAllInputOutputSet_reports {Tensor4f : Type} (op : OperatorBase)
    (scope : Scope Tensor4f) (n : String) (vars : List String)
    (hdecl : (n, vars) ∈ op.inputs_ ++ op.outputs_) (hreq : vars ≠ [kEmptyVarName])
    (hunbound : ∀ v ∈ vars, scope.FindOrNull v = none) :
    ∃ arg vs, (arg, vs) ∈ op.inputs_ ++ op.outputs_ ∧ markedEmpty vs = false ∧
      argBound scope vs = false ∧
      op.CheckAllInputOutputSet scope = Except.error (Error.BindingError op.type_ arg) := by
  have hp : (fun e : String × List String => !(markedEmpty e.2 || argBound scope e.2))
      (n, vars) = true := by
    have h1 : markedEmpty vars = false := by simpa [markedEmpty] using hreq
    have h2 : argBound scope vars = false := by
      simp only [argBound, List.any_eq_false]
      intro v hv
      simp [hunbound v hv]
    simp [h1, h2]
  have hsome : ((op.inputs_ ++ op.outputs_).find?
      fun e => !(markedEmpty e.2 || argBound scope e.2)).isSome := by
    rw [List.find?_isSome]
    exact ⟨(n, vars), hdecl, hp⟩
  obtain ⟨e, he⟩ := Option.isSome_iff_exists.mp hsome
  have hpe := List.find?_some he
  have hmem := List.mem_of_find?_eq_some he
  refine ⟨e.1, e.2, hmem, ?_, ?_, ?_⟩
  · simpa using (by simpa using hpe : markedEmpty e.2 = false ∧ argBound scope e.2 = false).1
  · simpa using (by simpa using hpe : markedEmpty e.2 = false ∧ argBound scope e.2 = false).2
  · simp only [OperatorBase.CheckAllInputOutputSet, he]

/-- C5: if a declared input argument that is not marked with the empty sentinel has none of
its variable names bound in the scope, `Run(scope)` fails with a `BindingError` for the
operator's type naming an unbound declared argument, and the run performs no kernel lookup
and no `Compute` call, whatever the execution step of the operator is. -/
theorem OperatorBase.Run_unbound_input {Tensor4f : Type} (op : OperatorBase)
    (RunImpl : Scope Tensor4f → RunReport Tensor4f) (scope : Scope Tensor4f) (n : String)
    (vars : List String) (hdecl : (n, vars) ∈ op.Inputs) (hreq : vars ≠ [kEmptyVarName])
    (hunbound : ∀ v ∈ vars, scope.FindOrNull v = none) :
    ∃ arg vs, (arg, vs) ∈ op.Inputs ++ op.Outputs ∧ markedEmpty vs = false ∧
      argBound scope vs = false ∧
      (op.Run RunImpl scope).result = Except.error (Error.BindingError op.Type arg) ∧
      (op.Run RunImpl scope).events = [] ∧
      kernelLookups (op.Run RunImpl scope).events = 0 ∧
      computeCalls (op.Run RunImpl scope).events = 0 := by
  obtain ⟨arg, vs, hmem, hm, hb, hcheck⟩ :=
    CheckAllInputOutputSet_reports op scope n vars (List.mem_append_left _ hdecl) hreq hunbound
  refine ⟨arg, vs, hmem, hm, hb, ?_⟩
  simp [OperatorBase.Run, hcheck, OperatorBase.Type, kernelLookups, computeCalls]

/-- C5 at the Identity operator run on a scope in which x1 is missing: the run fails with a
`BindingError` and makes no kernel lookup and no `Compute` call. -/
theorem OperatorBase.Run_unbound_input_witness :
    ∃ arg vs, (arg, vs) ∈ identityOp.Inputs ++ identityOp.Outputs ∧ markedEmpty vs = false ∧
      argBound scopeWithoutX1 vs = false ∧
      (identityOp.Run (OperatorWithKernel.RunImpl tagOps stubRegistry identityOp)
        scopeWithoutX1).result = Except.error (Error.BindingError identityOp.Type arg) ∧
      (identityOp.Run (OperatorWithKernel.RunImpl tagOps stubRegistry identityOp)
        scopeWithoutX1).events = [] ∧
      kernelLookups (identityOp.Run (OperatorWithKernel.RunImpl tagOps stubRegistry identityOp)
        scopeWithoutX1).events = 0 ∧
      computeCalls (identityOp.Run (OperatorWithKernel.RunImpl tagOps stubRegistry identityOp)
        scopeWithoutX1).events = 0 :=
  OperatorBase.Run_unbound_input identityOp
    (OperatorWithKernel.RunImpl tagOps stubRegistry identityOp) scopeWithoutX1 "X" ["x1"]
    (by decide) (by decide) (by decide)

/-- A reported key mismatch comes from a variable bound to a tensor whose key differs from the
expected key. -/
theorem keyMismatch_sound {Tensor4f : Type} (virt : KernelOps Tensor4f) (scope : Scope Tensor4f)
    (expected : OpKernelType) (v : String) (k : OpKernelType)
    (h : keyMismatch virt scope expected v = some k) :
    ∃ t, scope.FindOrNull v = some (Variable.tensor t) ∧
      k = virt.GetKernelTypeForVar v t expected ∧ k ≠ expected := by
  unfold keyMismatch at h
  split at h
  · rename_i t ht
    by_cases hk : virt.GetKernelTypeForVar v t expected = expected
    · simp [hk] at h
    · simp only [hk, if_false, Option.some.injEq] at h
      exact ⟨t, ht, h.symm, h ▸ hk⟩
  · simp at h

/-- A variable bound to a tensor whose key differs from the expected key is reported. -/
theorem keyMismatch_complete {Tensor4f : Type} (virt : KernelOps Tensor4f)
    (scope : Scope Tensor4f) (expected : OpKernelType) (v : String) (t : Tensor4f)
    (ht : scope.FindOrNull v = some (Variable.tensor t))
    (hk : virt.GetKernelTypeForVar v t expected ≠ expected) :
    keyMismatch virt scope expected v = some (virt.GetKernelTypeForVar v t expected) := by
  simp [keyMismatch, ht, hk]

/-- The first mismatch found in a list is a mismatch of a member of the list. -/
theorem firstKeyMismatch_sound {Tensor4f : Type} (virt : KernelOps Tensor4f)
    (scope : Scope Tensor4f) (expected : OpKernelType) (vs : List String) (v : String)
    (k : OpKernelType) (h : firstKeyMismatch virt scope expected vs = some (v, k)) :
    v ∈ vs ∧ keyMismatch virt scope expected v = some k := by
  induction vs with
  | nil => simp [firstKeyMismatch] at h
  | cons w ws ih =>
    unfold firstKeyMismatch at h
    cases hw : keyMismatch virt scope expected w with
    | some k0 =>
      simp only [hw, Option.some.injEq, Prod.mk.injEq] at h
      obtain ⟨rfl, rfl⟩ := h
      exact ⟨List.mem_cons_self _ _, hw⟩
    | none =>
      simp only [hw] at h
      exact ⟨List.mem_cons_of_mem _ (ih h).1, (ih h).2⟩

/-- A list with a mismatching member yields a first mismatch. -/
theorem firstKeyMismatch_complete {Tensor4f : Type} (virt : KernelOps Tensor4f)
    (scope : Scope Tensor4f) (expected : OpKernelType) (vs : List String) (v : String)
    (k : OpKernelType) (hv : v ∈ vs) (h : keyMismatch virt scope expected v = some k) :
    ∃ w k0, firstKeyMismatch virt scope expected vs = some (w, k0) := by
  induction vs with
  | nil => simp at hv
  | cons u us ih =>
    unfold firstKeyMismatch
    cases hu : keyMismatch virt scope expected u with
    | some k0 => exact ⟨u, k0, rfl⟩
    | none =>
      rcases List.mem_cons.mp hv with rfl | hmem
      · rw [hu] at h
        simp at h
      · exact ih hmem

/-- A variable name listed under an input argument is one of the operator's bound variable
names. -/
theorem OperatorBase.mem_boundVarNames_of_input (op : OperatorBase) (a : String)
    (vars : List String) (v : String) (ha : (a, vars) ∈ op.Inputs) (hv : v ∈ vars) :
    v ∈ op.boundVarNames := by
  simp only [OperatorBase.boundVarNames, List.mem_flatten, List.mem_map]
  exact ⟨vars, ⟨(a, vars), List.mem_append_left _ ha, rfl⟩, hv⟩

/-- C6 (as stated, refuted): the Add operator has two input variables x1 and x2, bound to
tensors whose kernel keys disagree, yet on a scope in which its output y1 is missing `Run`
fails with `BindingError`, which is not a `KernelMismatchError`. -/
theorem OperatorWithKernel.Run_mismatch_counterexample :
    (("X", ["x1"]) ∈ addOp.Inputs ∧ ("Y", ["x2"]) ∈ addOp.Inputs) ∧
    (OperatorWithKernel.inferredScope tagOps addOp mixedScopeWithoutY1).FindOrNull "x1"
      = some (Variable.tensor 0) ∧
    (OperatorWithKernel.inferredScope tagOps addOp mixedScopeWithoutY1).FindOrNull "x2"
      = some (Variable.tensor 1) ∧
    tagOps.GetKernelTypeForVar "x1" 0
        (OperatorWithKernel.expectedKey tagOps addOp mixedScopeWithoutY1)
      ≠ tagOps.GetKernelTypeForVar "x2" 1
        (OperatorWithKernel.expectedKey tagOps addOp mixedScopeWithoutY1) ∧
    (OperatorWithKernel.Run tagOps stubRegistry addOp mixedScopeWithoutY1).result
      = Except.error (Error.BindingError "Add" "Out") ∧
    ∀ v k e, (OperatorWithKernel.Run tagOps stubRegistry addOp mixedScopeWithoutY1).result
      ≠ Except.error (Error.KernelMismatchError v k e) := by
  have hres : (OperatorWithKernel.Run tagOps stubRegistry addOp mixedScopeWithoutY1).result
      = Except.error (Error.BindingError "Add" "Out") := by rfl
  refine ⟨by decide, by decide, by decide, by decide, hres, ?_⟩
  intro v k e
  rw [hres]
  simp

/-- C6 (amended): for a kernel-backed operator whose declared input and output arguments all
pass the binding validation of `Run`, if two input variables are bound to tensors whose kernel
keys returned by `GetKernelTypeForVar` disagree, then `Run` fails with `KernelMismatchError`
naming a bound variable whose key differs from the expected key, together with the two keys,
and the run performs no kernel lookup and no `Compute` call. -/
theorem OperatorWithKernel.Run_mismatch {Tensor4f : Type} (virt : KernelOps Tensor4f)
    (registry : KernelRegistry Tensor4f) (op : OperatorBase) (scope : Scope Tensor4f)
    (a1 a2 : String) (vars1 vars2 : List String) (v1 v2 : String) (t1 t2 : Tensor4f)
    (hcheck : op.CheckAllInputOutputSet scope = Except.ok ())
    (ha1 : (a1, vars1) ∈ op.Inputs) (hv1 : v1 ∈ vars1)
    (ha2 : (a2, vars2) ∈ op.Inputs) (hv2 : v2 ∈ vars2)
    (ht1 : (OperatorWithKernel.inferredScope virt op scope).FindOrNull v1
      = some (Variable.tensor t1))
    (ht2 : (OperatorWithKernel.inferredScope virt op scope).FindOrNull v2
      = some (Variable.tensor t2))
    (hne : virt.GetKernelTypeForVar v1 t1 (OperatorWithKernel.expectedKey virt op scope)
      ≠ virt.GetKernelTypeForVar v2 t2 (OperatorWithKernel.expectedKey virt op scope)) :
    ∃ v t, v ∈ op.boundVarNames ∧
      (OperatorWithKernel.inferredScope virt op scope).FindOrNull v = some (Variable.tensor t) ∧
      virt.GetKernelTypeForVar v t (OperatorWithKernel.expectedKey virt op scope)
        ≠ OperatorWithKernel.expectedKey virt op scope ∧
      (OperatorWithKernel.Run virt registry op scope).result
        = Except.error (Error.KernelMismatchError v
            (virt.GetKernelTypeForVar v t (OperatorWithKernel.expectedKey virt op scope))
            (OperatorWithKernel.expectedKey virt op scope)) ∧
      (OperatorWithKernel.Run virt registry op scope).events = [] ∧
      kernelLookups (OperatorWithKernel.Run virt registry op scope).events = 0 ∧
      computeCalls (OperatorWithKernel.Run virt registry op scope).events = 0 := by
  have hex : ∃ u k, u ∈ op.boundVarNames ∧
      keyMismatch virt (OperatorWithKernel.inferredScope virt op scope)
        (OperatorWithKernel.expectedKey virt op scope) u = some k := by
    by_cases h1 : virt.GetKernelTypeForVar v1 t1 (OperatorWithKernel.expectedKey virt op scope)
        = OperatorWithKernel.expectedKey virt op scope
    · have h2 : virt.GetKernelTypeForVar v2 t2 (OperatorWithKernel.expectedKey virt op scope)
          ≠ OperatorWithKernel.expectedKey virt op scope := fun h => hne (h1.trans h.symm)
      exact ⟨v2, _, op.mem_boundVarNames_of_input a2 vars2 v2 ha2 hv2,
        keyMismatch_complete virt _ _ v2 t2 ht2 h2⟩
    · exact ⟨v1, _, op.mem_boundVarNames_of_input a1 vars1 v1 ha1 hv1,
        keyMismatch_complete virt _ _ v1 t1 ht1 h1⟩
  obtain ⟨u, k, hu, hk⟩ := hex
  obtain ⟨w, k0, hfirst⟩ := firstKeyMismatch_complete virt _ _ op.boundVarNames u k hu hk
  obtain ⟨hw, hwk⟩ := firstKeyMismatch_sound virt _ _ op.boundVarNames w k0 hfirst
  obtain ⟨t, ht, hkeq, hkne⟩ := keyMismatch_sound virt _ _ w k0 hwk
  subst hkeq
  refine ⟨w, t, hw, ht, hkne, ?_⟩
  simp [OperatorWithKernel.Run, OperatorBase.Run, hcheck, OperatorWithKernel.RunImpl, hfirst,
    kernelLookups, computeCalls]

/-- C6 (amended) at the Add operator run on a scope holding x1, x2 and y1, where x1 and x2
carry different data types: the run fails with `KernelMismatchError` and makes no kernel
lookup and no `Compute` call. -/
theorem OperatorWithKernel.Run_mismatch_witness :
    ∃ v t, v ∈ addOp.boundVarNames ∧
      (OperatorWithKernel.inferredScope tagOps addOp mixedScope).FindOrNull v
        = some (Variable.tensor t) ∧
      tagOps.GetKernelTypeForVar v t (OperatorWithKernel.expectedKey tagOps addOp mixedScope)
        ≠ OperatorWithKernel.expectedKey tagOps addOp mixedScope ∧
      (OperatorWithKernel.Run tagOps stubRegistry addOp mixedScope).result
        = Except.error (Error.KernelMismatchError v
            (tagOps.GetKernelTypeForVar v t
              (OperatorWithKernel.expectedKey tagOps addOp mixedScope))
            (OperatorWithKernel.expectedKey tagOps addOp mixedScope)) ∧
      (OperatorWithKernel.Run tagOps stubRegistry addOp mixedScope).events = [] ∧
      kernelLookups (OperatorWithKernel.Run tagOps stubRegistry addOp mixedScope).events = 0 ∧
      computeCalls (OperatorWithKernel.Run tagOps stubRegistry addOp mixedScope).events = 0 :=
  OperatorWithKernel.Run_mismatch tagOps stubRegistry addOp mixedScope "X" "Y" ["x1"] ["x2"]
    "x1" "x2" 0 1 rfl (by decide) (by decide) (by decide) (by decide) (by decide)
    (by decide) (by decide)

end paddle_mobile
